import Mathlib

set_option autoImplicit false

/-!
Shallow embedding of `src/figma-api.js` (the final version of the Figma API
wrapper: `RateLimiter`, `RequestQueue`, `FigmaDownloader` with
`fetchWithRetry`, `getImageUrls`, `downloadImages`) together with the MCP
entry point of the server file (`CallToolRequestSchema` handler), and proofs
about the embedded definitions.

Modelling conventions:
* The JavaScript runtime's cooperative single-threaded semantics is
  determinised: asynchronous steps are executed sequentially in program
  order; `Date.now()` is an abstract clock that advances exactly by the
  duration of each `sleep`.
* `fetch` is an environment `env : Nat → FetchResult` indexed by the number
  of fetches issued so far by the downloader instance; an entry is either a
  resolved HTTP response or a network-level rejection.
* `Math.random() * 1000` jitter is an abstract function `jitter : Nat → Nat`
  indexed by the attempt number; the bound `jitter a < 1000` is a hypothesis
  where it matters.
* Observable effects (`sleep`, issuing a fetch, a rate-limiter acquisition)
  are recorded in an event trace carried in the downloader state.
* URL percent-encoding performed by `URLSearchParams` is elided: the query
  string is assembled textually in the same order as the source.
-/

/-- One observable effect of the downloader. -/
inductive Event where
  | sleep (ms : Nat)
  | httpGet (url : String)
  | acquire
  deriving DecidableEq, Repr

/-- The parts of a JS `Response` object the code reads: HTTP status and
status text, the `retry-after` header (seconds), the parsed JSON body fields
`err` and `images`, and the size of the streamed body bytes. -/
structure HttpResponse where
  status : Nat
  statusText : String := ""
  retryAfter : Option Nat := none
  err : Option String := none
  images : List (String × Option String) := []
  bodySize : Nat := 0
  deriving DecidableEq, Repr

/-- JS `response.ok`: status in the range 200–299. -/
def httpOk (r : HttpResponse) : Bool :=
  200 ≤ r.status && r.status < 300

/-- The result of one `fetch` call: a response, or a rejected promise
(network-level failure). -/
inductive FetchResult where
  | resp (r : HttpResponse)
  | netError (msg : String)
  deriving DecidableEq, Repr

/-- The distinct thrown errors of the wrapper.  `rateLimit` is the error
thrown after exhausting the retry ceiling; `network` is a propagated fetch
rejection; `api` is the `Error` thrown by `getImageUrls` on a non-OK batch
response or a vendor `err` field; `undefinedResponse` marks the JS
`TypeError` that would arise from reading `.ok` off the `undefined` that
`fetchWithRetry` returns when its loop falls through. -/
inductive Err where
  | network (msg : String)
  | rateLimit (msg : String)
  | api (msg : String)
  | undefinedResponse
  deriving DecidableEq, Repr

/-- The message carried by an error (JS `error.message`). -/
def Err.message : Err → String
  | .network m => m
  | .rateLimit m => m
  | .api m => m
  | .undefinedResponse => "Cannot read properties of undefined"

/-- Mutable state of one `FigmaDownloader` instance, plus the abstract
clock, the fetch counter indexing `env`, and the accumulated event trace.
`retryCount` is the shared throttle counter; `dlRequests` is
`downloadQueue.rateLimiter.requests`; `apiRequests` is
`apiRateLimiter.requests` (constructed in the source but never used);
`lastRequestTime` is `downloadQueue.lastRequestTime`. -/
structure St where
  retryCount : Int
  fc : Nat
  clock : Nat
  lastRequestTime : Nat
  dlRequests : List Nat
  apiRequests : List Nat
  trace : List Event
  deriving DecidableEq, Repr

/-- The state a fresh `FigmaDownloader` starts from (`constructor`):
throttle counter zero, both rate limiters with empty timestamp lists,
queue idle. -/
def initSt : St :=
  { retryCount := 0, fc := 0, clock := 0, lastRequestTime := 0,
    dlRequests := [], apiRequests := [], trace := [] }

/-- `await sleep(ms)`: records the event and advances the clock. -/
def stSleep (ms : Nat) (st : St) : St :=
  { st with clock := st.clock + ms, trace := st.trace ++ [Event.sleep ms] }

/-- `await fetch(url, options)`: consumes the next entry of the fetch
environment and records the attempt. -/
def stFetch (env : Nat → FetchResult) (url : String) (st : St) :
    FetchResult × St :=
  (env st.fc,
   { st with fc := st.fc + 1, trace := st.trace ++ [Event.httpGet url] })

/-- `RateLimiter.acquire()` on the download queue's limiter
(window 60000 ms, ceiling 30), with the recursive recheck flattened to the
single level it can need in this sequential model: expired timestamps are
filtered out; under quota the current time is recorded; at quota the call
sleeps until the oldest retained timestamp leaves the window (plus the
100 ms safety margin), re-filters, and records. -/
def stAcquire (st : St) : St :=
  let reqs := st.dlRequests.filter (fun t => st.clock - t < 60000)
  if reqs.length ≥ 30 then
    let oldest := reqs.headD 0
    let wait := 60000 - (st.clock - oldest) + 100
    let st1 := stSleep wait st
    let reqs1 := reqs.filter (fun t => st1.clock - t < 60000)
    { st1 with dlRequests := reqs1 ++ [st1.clock],
               trace := st1.trace ++ [Event.acquire] }
  else
    { st with dlRequests := reqs ++ [st.clock],
              trace := st.trace ++ [Event.acquire] }

/-- The minimum-interval pacing of `RequestQueue.process`: if fewer than
`interval` (1000) ms elapsed since the previous task started, sleep the
difference; then stamp `lastRequestTime`. -/
def stInterval (st : St) : St :=
  let elapsed := st.clock - st.lastRequestTime
  let st1 := if elapsed < 1000 then stSleep (1000 - elapsed) st else st
  { st1 with lastRequestTime := st1.clock }

/-- The result of `fetchWithRetry`: the value returned or error thrown,
with the updated state.  `Except.ok none` is the implicit `undefined`
returned when the attempt loop falls through. -/
abbrev FWRes := Except Err (Option HttpResponse) × St

/-- The pre-check of each attempt: when the shared throttle counter is
positive, sleep `min(retryCount * 2000, 10000)` ms before issuing the
call. -/
def proDelay (st : St) : St :=
  if st.retryCount > 0
  then stSleep (min (st.retryCount * 2000) 10000).toNat st
  else st

/-- The backoff sleep after a throttled attempt that still has retries
left: `retry-after * 1000` ms when the server supplied the header, else
`INITIAL_DELAY * 2^attempt` (2000·2^attempt) ms, plus the random jitter
term (0–1000 ms). -/
def retrySleep (jitter : Nat → Nat) (attempt : Nat) (r : HttpResponse)
    (st : St) : St :=
  let base := match r.retryAfter with
    | some s => s * 1000
    | none => 2000 * 2 ^ attempt
  stSleep (base + jitter attempt) st

/-- The attempt loop of `fetchWithRetry` (source lines 131–176).
`remaining` is the number of loop iterations still permitted, maintained by
the wrapper as `(retries + 1 - attempt).toNat` so that the recursion is
structural; `attempt` is the loop index of the source.  Each iteration:
proactive sleep of `min(retryCount·2000, 10000)` when the throttle counter
is positive; issue the fetch; on a network rejection propagate it; on a
429 increment the counter and either throw the rate-limit error when
`attempt === retries` or sleep `retry-after·1000` (else `2000·2^attempt`)
plus jitter and retry; on any other response decrement the counter by at
most one (floored at 0) and return the response. -/
def fetchGo (env : Nat → FetchResult) (jitter : Nat → Nat) (url : String)
    (retries : Int) : Nat → Nat → St → FWRes
  | 0, _attempt, st => (Except.ok none, st)
  | remaining + 1, attempt, st =>
    match stFetch env url (proDelay st) with
    | (.netError m, st2) => (Except.error (Err.network m), st2)
    | (.resp r, st2) =>
      if r.status = 429 then
        let st3 := { st2 with retryCount := st2.retryCount + 1 }
        if (attempt : Int) = retries then
          (Except.error (Err.rateLimit
            ("Rate limit exceeded after " ++ toString retries ++
             " retries. Try again in a few minutes.")), st3)
        else
          fetchGo env jitter url retries remaining (attempt + 1)
            (retrySleep jitter attempt r st3)
      else
        let st3 := { st2 with retryCount :=
          if st2.retryCount > 0 then max 0 (st2.retryCount - 1)
          else st2.retryCount }
        (Except.ok (some r), st3)

/-- `fetchWithRetry(url, options, retries)`: run the attempt loop from
`attempt = 0`; the loop `for (attempt = 0; attempt <= retries; attempt++)`
permits `(retries + 1).toNat` iterations (zero when `retries < 0`). -/
def fetchWithRetry (env : Nat → FetchResult) (jitter : Nat → Nat)
    (url : String) (retries : Int) (st : St) : FWRes :=
  fetchGo env jitter url retries (retries + 1).toNat 0 st

/-- The identifier conversion `id.replace` with the global hyphen regex:
every hyphen of a display-form identifier becomes a colon. -/
def canonicalId (s : String) : String :=
  String.mk (s.data.map (fun c => if c = '-' then ':' else c))

/-- The file-name conversion `nodeId.replace` with the global colon regex:
every colon of a canonical identifier becomes an underscore. -/
def safeName (s : String) : String :=
  String.mk (s.data.map (fun c => if c = ':' then '_' else c))

/-- The batching loop of `getImageUrls`:
`for (i = 0; i < formattedIds.length; i += BATCH_SIZE)
   batches.push(formattedIds.slice(i, i + BATCH_SIZE))`
with `BATCH_SIZE = 5`. -/
def chunkList5 {α : Type} : List α → List (List α)
  | [] => []
  | a :: b :: c :: d :: e :: rest => [a, b, c, d, e] :: chunkList5 rest
  | xs => [xs]

/-- The query URL of one batch request (percent-encoding elided):
`ids` joined with commas, the format, and — only for png — the scale. -/
def buildImagesUrl (fileKey : String) (batch : List String)
    (format : String) (scale : Nat) : String :=
  "https://api.figma.com/v1/images/" ++ fileKey ++ "?ids=" ++
    String.intercalate "," batch ++ "&format=" ++ format ++
    (if format = "png" then "&scale=" ++ toString scale else "")

/-- JS object spread `{...a, ...b}`: keys of `a` keep their position (their
value replaced when `b` also has the key); keys only in `b` follow in `b`'s
order. -/
def spreadMerge (a b : List (String × Option String)) :
    List (String × Option String) :=
  a.map (fun p => match b.find? (fun q => q.1 = p.1) with
    | some q => (p.1, q.2)
    | none => p)
  ++ b.filter (fun q => ¬ a.any (fun p => p.1 = q.1))

/-- The sequential per-batch loop of `getImageUrls` (source lines
196–238): issue the batch request through `fetchWithRetry` (ceiling 5),
throw on a non-OK response (`Figma API error: status statusText`) or a
vendor `err` field (`Figma API error: err`), spread-merge the returned
`images` map into the accumulator, and — between batches, not after the
last — sleep `REQUEST_INTERVAL * 2 = 2000` ms. -/
def getImageUrlsGo (env : Nat → FetchResult) (jitter : Nat → Nat)
    (fileKey : String) (format : String) (scale : Nat) :
    List (List String) → List (String × Option String) → St →
    Except Err (List (String × Option String)) × St
  | [], acc, st => (Except.ok acc, st)
  | batch :: rest, acc, st =>
    let url := buildImagesUrl fileKey batch format scale
    match fetchWithRetry env jitter url 5 st with
    | (Except.error e, st1) => (Except.error e, st1)
    | (Except.ok none, st1) => (Except.error Err.undefinedResponse, st1)
    | (Except.ok (some r), st1) =>
      if ¬ httpOk r then
        (Except.error (Err.api ("Figma API error: " ++ toString r.status ++
          " " ++ r.statusText)), st1)
      else
        match r.err with
        | some m => (Except.error (Err.api ("Figma API error: " ++ m)), st1)
        | none =>
          let acc1 := spreadMerge acc r.images
          let st2 := if rest ≠ [] then stSleep 2000 st1 else st1
          getImageUrlsGo env jitter fileKey format scale rest acc1 st2

/-- `getImageUrls(fileKey, nodeIds, format, scale)`: canonicalize the
identifiers, split them into batches of 5, and run the sequential batch
loop starting from the empty accumulator. -/
def getImageUrls (env : Nat → FetchResult) (jitter : Nat → Nat) (st : St)
    (fileKey : String) (nodeIds : List String) (format : String)
    (scale : Nat) : Except Err (List (String × Option String)) × St :=
  let formattedIds := nodeIds.map canonicalId
  let batches := chunkList5 formattedIds
  getImageUrlsGo env jitter fileKey format scale batches [] st

/-- One per-node outcome record of `downloadImages`. -/
structure Outcome where
  nodeId : String
  success : Bool
  fileName : Option String := none
  filePath : Option String := none
  size : Option Nat := none
  error : Option String := none
  deriving DecidableEq, Repr

/-- The files written to disk: path and byte size of each. -/
abbrev Files := List (String × Nat)

/-- The body of one queued download task (source lines 270–294): a second
governed fetch of the image bytes through `fetchWithRetry` (ceiling 5);
a non-OK response throws `HTTP status`; the response body is streamed to
the destination file and a success outcome is recorded with the file's
size; any error thrown in this path is caught and converted to a failure
outcome carrying the error's message. -/
def downloadTask (env : Nat → FetchResult) (jitter : Nat → Nat)
    (nodeId imageUrl fileName filePath : String) (st : St) (fs : Files) :
    Outcome × St × Files :=
  match fetchWithRetry env jitter imageUrl 5 st with
  | (Except.error e, st1) =>
    ({ nodeId := nodeId, success := false, error := some e.message },
     st1, fs)
  | (Except.ok none, st1) =>
    ({ nodeId := nodeId, success := false,
       error := some Err.undefinedResponse.message }, st1, fs)
  | (Except.ok (some r), st1) =>
    if httpOk r then
      ({ nodeId := nodeId, success := true, fileName := some fileName,
         filePath := some filePath, size := some r.bodySize },
       st1, fs ++ [(filePath, r.bodySize)])
    else
      ({ nodeId := nodeId, success := false,
         error := some ("HTTP " ++ toString r.status) }, st1, fs)

/-- The per-entry loop of `downloadImages` (source lines 256–300) over
`Object.entries(imageUrls)`, determinised to run each queued task at its
enqueue point: an absent URL records the fixed `Cannot export` failure
without touching the queue; otherwise the output names are derived and the
task runs under the queue's gating (`rateLimiter.acquire()` then the
minimum-interval pacing). -/
def runDownloads (env : Nat → FetchResult) (jitter : Nat → Nat)
    (outputDir format : String) :
    List (String × Option String) → St → Files →
    List Outcome × St × Files
  | [], st, fs => ([], st, fs)
  | (nodeId, none) :: rest, st, fs =>
    let r := runDownloads env jitter outputDir format rest st fs
    ({ nodeId := nodeId, success := false,
       error := some "Cannot export" } :: r.1, r.2)
  | (nodeId, some imageUrl) :: rest, st, fs =>
    let fileName := safeName nodeId ++ "." ++ format
    let filePath := outputDir ++ "/" ++ fileName
    let st1 := stAcquire st
    let st2 := stInterval st1
    let t := downloadTask env jitter nodeId imageUrl fileName filePath st2 fs
    let r := runDownloads env jitter outputDir format rest t.2.1 t.2.2
    (t.1 :: r.1, r.2)

/-- `downloadImages(fileKey, nodeIds, outputDir, {format, scale})` (source
lines 243–303): resolve the URLs (a resolution failure propagates, so no
outcome and no file is produced), then process each entry of the merged
vendor map and return the full outcome list. -/
def downloadImages (env : Nat → FetchResult) (jitter : Nat → Nat) (st : St)
    (fileKey : String) (nodeIds : List String) (outputDir : String)
    (format : String) (scale : Nat) :
    Except Err (List Outcome) × St × Files :=
  match getImageUrls env jitter st fileKey nodeIds format scale with
  | (Except.error e, st1) => (Except.error e, st1, [])
  | (Except.ok imageUrls, st1) =>
    let r := runDownloads env jitter outputDir format imageUrls st1 []
    (Except.ok r.1, r.2)

/-- The `download_images` tool handler of the MCP server (`CallToolRequest`
handler, server file lines 84–92): it constructs a fresh
`FigmaDownloader(API_KEY)` for the call and invokes `downloadImages` on
it, so every invocation through this entry point starts from the
constructor state `initSt`. -/
def callToolDownloadImages (env : Nat → FetchResult) (jitter : Nat → Nat)
    (fileKey : String) (nodeIds : List String) (outputDir : String)
    (format : String) (scale : Nat) :
    Except Err (List Outcome) × St × Files :=
  downloadImages env jitter initSt fileKey nodeIds outputDir format scale

def resp200 : HttpResponse := { status := 200 }

def resp429 : HttpResponse := { status := 429 }

def resp500 : HttpResponse := { status := 500 }

/-- Fetch environment: two throttled responses, then a 200. -/
def envTwo429 : Nat → FetchResult
  | 0 => .resp resp429
  | 1 => .resp resp429
  | _ => .resp resp200

/-- Fetch environment: every response is a 429. -/
def envAll429 : Nat → FetchResult := fun _ => .resp resp429

/-- Fetch environment: every fetch rejects at the network level. -/
def envNetFail : Nat → FetchResult := fun _ => .netError "fetch failed"

/-- Fetch environment: every response is a plain 200. -/
def env200 : Nat → FetchResult := fun _ => .resp resp200

/-- A downloader state whose throttle counter is 1. -/
def rcOneSt : St := { initSt with retryCount := 1 }

/-- Zero jitter, for concrete runs where no throttled response occurs. -/
def jitter0 : Nat → Nat := fun _ => 0

/-- The 12 display-form node identifiers of the batching scenario. -/
def ids12 : List String :=
  ["1-1", "1-2", "1-3", "1-4", "1-5", "1-6", "1-7", "1-8", "1-9", "1-10",
   "1-11", "1-12"]

/-- Fetch environment for the batching scenario: each resolution call
succeeds with a small distinct images map. -/
def envBatches : Nat → FetchResult
  | 0 => .resp { status := 200, images := [("1:1", some "a")] }
  | 1 => .resp { status := 200, images := [("1:6", some "b")] }
  | _ => .resp { status := 200, images := [("1:11", none)] }

/-- Fetch environment where the vendor's resolution response omits one of
the requested identifiers: the images map only contains `1:1`. -/
def envOmit : Nat → FetchResult :=
  fun _ => .resp { status := 200, images := [("1:1", some "u")] }

/-- Fetch environment where every fetch returns a plain HTTP 500. -/
def env500 : Nat → FetchResult := fun _ => .resp resp500

/-- Fetch environment for the mixed per-item scenario: the resolution call
returns one unexportable node and two URLs; the first byte-fetch returns
HTTP 500; the second byte-fetch succeeds with a 7-byte body. -/
def envMixed : Nat → FetchResult
  | 0 => .resp { status := 200,
                 images := [("1:0", none), ("1:1", some "ua"),
                            ("1:2", some "ub")] }
  | 1 => .resp resp500
  | _ => .resp { status := 200, bodySize := 7 }

/-- Fetch environment whose resolution response carries a vendor
application-level `err` field. -/
def envErrField : Nat → FetchResult :=
  fun _ => .resp { status := 200, err := some "boom" }

theorem fetchGo_frame (env : Nat → FetchResult) (j : Nat → Nat) (url : String)
    (retries : Int) :
    ∀ (remaining attempt : Nat) (st : St),
      (∃ rest, ((fetchGo env j url retries remaining attempt st).2).trace
          = st.trace ++ rest ∧ Event.acquire ∉ rest)
      ∧ ((fetchGo env j url retries remaining attempt st).2).apiRequests
          = st.apiRequests
      ∧ ((fetchGo env j url retries remaining attempt st).2).dlRequests
          = st.dlRequests
      ∧ ((fetchGo env j url retries remaining attempt st).2).lastRequestTime
          = st.lastRequestTime
      ∧ ((fetchGo env j url retries remaining attempt st).2).fc
          ≤ st.fc + remaining
      ∧ (0 ≤ st.retryCount →
          0 ≤ ((fetchGo env j url retries remaining attempt st).2).retryCount) := by
  intro remaining
  induction remaining with
  | zero =>
    intro attempt st
    simp [fetchGo]
  | succ n ih =>
    intro attempt st
    simp only [fetchGo, stFetch]
    cases hE : env (proDelay st).fc with
    | netError m =>
      by_cases hrc : st.retryCount > 0 <;>
        simp [hE, proDelay, stSleep, hrc]
    | resp r =>
      by_cases h429 : r.status = 429
      · by_cases hfin : (attempt : Int) = retries
        · by_cases hrc : st.retryCount > 0 <;>
            simp [hE, h429, hfin, proDelay, stSleep, hrc] <;> omega
        · simp only [hE, h429, hfin, ite_true, ite_false, if_neg hfin]
          have step : ∀ S : St,
              (∃ pre, S.trace = st.trace ++ pre ∧ Event.acquire ∉ pre) →
              S.apiRequests = st.apiRequests →
              S.dlRequests = st.dlRequests →
              S.lastRequestTime = st.lastRequestTime →
              S.fc ≤ st.fc + 1 →
              (0 ≤ st.retryCount → 0 ≤ S.retryCount) →
              (∃ rest,
                ((fetchGo env j url retries n (attempt + 1) S).2).trace
                  = st.trace ++ rest ∧ Event.acquire ∉ rest)
              ∧ ((fetchGo env j url retries n (attempt + 1) S).2).apiRequests
                  = st.apiRequests
              ∧ ((fetchGo env j url retries n (attempt + 1) S).2).dlRequests
                  = st.dlRequests
              ∧ ((fetchGo env j url retries n (attempt + 1) S).2).lastRequestTime
                  = st.lastRequestTime
              ∧ ((fetchGo env j url retries n (attempt + 1) S).2).fc
                  ≤ st.fc + (n + 1)
              ∧ (0 ≤ st.retryCount →
                  0 ≤ ((fetchGo env j url retries n (attempt + 1) S).2).retryCount) := by
            intro S hpre hapi hdl hlast hfc hrc
            obtain ⟨pre, hpre, hnapre⟩ := hpre
            obtain ⟨⟨rest, hr, hna⟩, hapi2, hdl2, hlast2, hfc2, hrc2⟩ :=
              ih (attempt + 1) S
            refine ⟨⟨pre ++ rest, ?_, ?_⟩, ?_, ?_, ?_, ?_, ?_⟩
            · rw [hr, hpre, List.append_assoc]
            · simp_all [List.mem_append]
            · rw [hapi2, hapi]
            · rw [hdl2, hdl]
            · rw [hlast2, hlast]
            · omega
            · intro h0; exact hrc2 (hrc h0)
          apply step
          · by_cases hrc : st.retryCount > 0 <;>
              simp [proDelay, stSleep, retrySleep, hrc]
          · by_cases hrc : st.retryCount > 0 <;>
              simp [proDelay, stSleep, retrySleep, hrc]
          · by_cases hrc : st.retryCount > 0 <;>
              simp [proDelay, stSleep, retrySleep, hrc]
          · by_cases hrc : st.retryCount > 0 <;>
              simp [proDelay, stSleep, retrySleep, hrc]
          · by_cases hrc : st.retryCount > 0 <;>
              simp [proDelay, stSleep, retrySleep, hrc]
          · by_cases hrc : st.retryCount > 0 <;>
              simp [proDelay, stSleep, retrySleep, hrc] <;> omega
      · by_cases hrc : st.retryCount > 0 <;>
          simp [hE, h429, proDelay, stSleep, hrc]

theorem fetchGo_ne_ok_none (env : Nat → FetchResult) (j : Nat → Nat)
    (url : String) (retries : Int) :
    ∀ (remaining attempt : Nat) (st : St),
      (attempt : Int) + remaining = retries + 1 → 1 ≤ remaining →
      (fetchGo env j url retries remaining attempt st).1 ≠ Except.ok none := by
  intro remaining
  induction remaining with
  | zero => intro attempt st _ h1; omega
  | succ n ih =>
    intro attempt st hinv _
    simp only [fetchGo, stFetch]
    cases hE : env (proDelay st).fc with
    | netError m => simp
    | resp r =>
      by_cases h429 : r.status = 429
      · by_cases hfin : (attempt : Int) = retries
        · simp [h429, hfin]
        · have hn : 1 ≤ n := by
            push_cast at hinv
            omega
          simp only [h429, hfin, ite_true, ite_false, if_neg hfin]
          apply ih (attempt + 1) _ (by push_cast at hinv ⊢; omega) hn
      · simp [h429]

theorem fetchGo_ok_not_429 (env : Nat → FetchResult) (j : Nat → Nat)
    (url : String) (retries : Int) :
    ∀ (remaining attempt : Nat) (st : St) (r : HttpResponse),
      (fetchGo env j url retries remaining attempt st).1
        = Except.ok (some r) → r.status ≠ 429 := by
  intro remaining
  induction remaining with
  | zero => intro attempt st r h; simp [fetchGo] at h
  | succ n ih =>
    intro attempt st r h
    simp only [fetchGo, stFetch] at h
    cases hE : env (proDelay st).fc with
    | netError m => rw [hE] at h; simp at h
    | resp r2 =>
      rw [hE] at h
      by_cases h429 : r2.status = 429
      · by_cases hfin : (attempt : Int) = retries
        · simp [h429, hfin] at h
        · simp only [h429, hfin, ite_true, ite_false, if_neg hfin] at h
          exact ih (attempt + 1) _ r h
      · simp [h429] at h
        rw [← h]
        exact h429

theorem fetchGo_succ_trace (env : Nat → FetchResult) (j : Nat → Nat)
    (url : String) (retries : Int) (n attempt : Nat) (st : St) :
    ∃ rest, ((fetchGo env j url retries (n + 1) attempt st).2).trace
      = (proDelay st).trace ++ [Event.httpGet url] ++ rest := by
  simp only [fetchGo, stFetch]
  cases hE : env (proDelay st).fc with
  | netError m => exact ⟨[], by simp⟩
  | resp r =>
    by_cases h429 : r.status = 429
    · by_cases hfin : (attempt : Int) = retries
      · exact ⟨[], by simp [h429, hfin]⟩
      · simp only [h429, hfin, ite_true, ite_false, if_neg hfin]
        have step : ∀ S : St,
            S.trace = (proDelay st).trace ++ [Event.httpGet url] ++
              [Event.sleep ((match r.retryAfter with
                | some s => s * 1000
                | none => 2000 * 2 ^ attempt) + j attempt)] →
            ∃ rest, ((fetchGo env j url retries n (attempt + 1) S).2).trace
              = (proDelay st).trace ++ [Event.httpGet url] ++ rest := by
          intro S hS
          obtain ⟨⟨rest, hr, _⟩, _⟩ :=
            fetchGo_frame env j url retries n (attempt + 1) S
          refine ⟨[Event.sleep ((match r.retryAfter with
            | some s => s * 1000
            | none => 2000 * 2 ^ attempt) + j attempt)] ++ rest, ?_⟩
          rw [hr, hS]
          simp [List.append_assoc]
        apply step
        simp [retrySleep, stSleep]
    · exact ⟨[], by simp [h429]⟩

/-- Claim C2: with the default ceiling of 5, responses [429, 429, 200]
produce exactly 3 HTTP attempts (2 retries) and return the 200 response,
with strictly increasing waits before each retry when no retry-after
header is supplied; 6 consecutive 429s throw the rate-limit-exceeded
error (not a transport error) after exactly 6 attempts, and no
environment can make the attempt count exceed the ceiling's 6; a
network-level failure propagates after a single attempt with no retry. -/
theorem C2_fetchWithRetry_behavior (j : Nat → Nat) (hj : ∀ a, j a < 1000) :
    ((fetchWithRetry envTwo429 j "u" 5 initSt).1 = Except.ok (some resp200)
      ∧ ((fetchWithRetry envTwo429 j "u" 5 initSt).2).fc = 3
      ∧ ((fetchWithRetry envTwo429 j "u" 5 initSt).2).trace =
          [Event.httpGet "u", Event.sleep (2000 + j 0), Event.sleep 2000,
           Event.httpGet "u", Event.sleep (4000 + j 1), Event.sleep 4000,
           Event.httpGet "u"]
      ∧ 2000 + j 0 < 4000 + j 1
      ∧ (2000 + j 0) + 2000 < (4000 + j 1) + 4000)
    ∧ ((fetchWithRetry envAll429 j "u" 5 initSt).1 = Except.error
          (Err.rateLimit
            "Rate limit exceeded after 5 retries. Try again in a few minutes.")
      ∧ ((fetchWithRetry envAll429 j "u" 5 initSt).2).fc = 6)
    ∧ (∀ env st, ((fetchWithRetry env j "u" 5 st).2).fc ≤ st.fc + 6)
    ∧ ((fetchWithRetry envNetFail j "u" 5 initSt).1
          = Except.error (Err.network "fetch failed")
      ∧ ((fetchWithRetry envNetFail j "u" 5 initSt).2).fc = 1
      ∧ ((fetchWithRetry envNetFail j "u" 5 initSt).2).trace
          = [Event.httpGet "u"]) := by
  refine ⟨⟨?_, ?_, ?_, ?_, ?_⟩, ⟨?_, ?_⟩, ?_, ?_, ?_, ?_⟩
  · simp [fetchWithRetry, fetchGo, stFetch, proDelay, stSleep, retrySleep,
      envTwo429, resp429, resp200, initSt]
  · simp [fetchWithRetry, fetchGo, stFetch, proDelay, stSleep, retrySleep,
      envTwo429, resp429, resp200, initSt]
  · simp [fetchWithRetry, fetchGo, stFetch, proDelay, stSleep, retrySleep,
      envTwo429, resp429, resp200, initSt]
  · have := hj 0; omega
  · have := hj 0; omega
  · simp [fetchWithRetry, fetchGo, stFetch, proDelay, stSleep, retrySleep,
      envAll429, resp429, initSt]
    decide
  · simp [fetchWithRetry, fetchGo, stFetch, proDelay, stSleep, retrySleep,
      envAll429, resp429, initSt]
  · intro env st
    have h := (fetchGo_frame env j "u" 5 6 0 st).2.2.2.2.1
    simpa [fetchWithRetry] using h
  · simp [fetchWithRetry, fetchGo, stFetch, proDelay, stSleep, retrySleep,
      envNetFail, initSt]
  · simp [fetchWithRetry, fetchGo, stFetch, proDelay, stSleep, retrySleep,
      envNetFail, initSt]
  · simp [fetchWithRetry, fetchGo, stFetch, proDelay, stSleep, retrySleep,
      envNetFail, initSt]

theorem proDelay_fc (st : St) : (proDelay st).fc = st.fc := by
  by_cases h : st.retryCount > 0 <;> simp [proDelay, stSleep, h]

theorem proDelay_retryCount (st : St) :
    (proDelay st).retryCount = st.retryCount := by
  by_cases h : st.retryCount > 0 <;> simp [proDelay, stSleep, h]

theorem proDelay_trace_pos (st : St) (h : 0 < st.retryCount) :
    (proDelay st).trace
      = st.trace ++ [Event.sleep (min (st.retryCount * 2000) 10000).toNat] := by
  simp [proDelay, stSleep, h]

theorem proDelay_trace_zero (st : St) (h : st.retryCount = 0) :
    (proDelay st).trace = st.trace := by
  simp [proDelay, stSleep, h]

/-- Claim C6: the throttle counter starts at zero, is incremented by one
on every 429 response, is decremented by at most one and floored at zero
on every non-429 response, and is non-negative at all times; when it is
positive at the start of an attempt, the attempt sleeps exactly
`min(counter * 2000, 10000)` ms before issuing the HTTP call, and when it
is zero the first event is the HTTP call itself with no proactive
sleep. -/
theorem C6_throttle_counter :
    initSt.retryCount = 0
    ∧ (∀ (env : Nat → FetchResult) (j : Nat → Nat) (url : String)
        (retries : Int) (st : St), 0 ≤ st.retryCount →
        0 ≤ ((fetchWithRetry env j url retries st).2).retryCount)
    ∧ (∀ (env : Nat → FetchResult) (j : Nat → Nat) (url : String) (st : St)
        (r : HttpResponse), env st.fc = FetchResult.resp r → r.status = 429 →
        ((fetchWithRetry env j url 0 st).2).retryCount = st.retryCount + 1)
    ∧ (∀ (env : Nat → FetchResult) (j : Nat → Nat) (url : String)
        (retries : Int) (st : St) (r : HttpResponse),
        0 ≤ retries → 0 ≤ st.retryCount →
        env st.fc = FetchResult.resp r → r.status ≠ 429 →
        ((fetchWithRetry env j url retries st).2).retryCount
          = max 0 (st.retryCount - 1))
    ∧ (∀ (env : Nat → FetchResult) (j : Nat → Nat) (url : String)
        (retries : Int) (st : St), 0 ≤ retries → 0 < st.retryCount →
        ∃ rest, ((fetchWithRetry env j url retries st).2).trace
          = st.trace ++ [Event.sleep (min (st.retryCount * 2000) 10000).toNat,
                         Event.httpGet url] ++ rest)
    ∧ (∀ (env : Nat → FetchResult) (j : Nat → Nat) (url : String)
        (retries : Int) (st : St), 0 ≤ retries → st.retryCount = 0 →
        ∃ rest, ((fetchWithRetry env j url retries st).2).trace
          = st.trace ++ [Event.httpGet url] ++ rest) := by
  refine ⟨rfl, ?_, ?_, ?_, ?_, ?_⟩
  · intro env j url retries st h
    exact (fetchGo_frame env j url retries _ 0 st).2.2.2.2.2 h
  · intro env j url st r hE h429
    have h1 : ((0 : Int) + 1).toNat = 1 := by decide
    simp only [fetchWithRetry, h1, fetchGo, stFetch, proDelay_fc, hE, h429,
      ite_true]
    simp [proDelay_retryCount]
  · intro env j url retries st r hret hrc hE h429
    obtain ⟨m, hm⟩ : ∃ m, (retries + 1).toNat = m + 1 :=
      ⟨retries.toNat, by omega⟩
    simp only [fetchWithRetry, hm, fetchGo, stFetch, proDelay_fc, hE, h429,
      ite_false, if_neg h429]
    by_cases h : st.retryCount > 0
    · simp [proDelay_retryCount, h]
    · simp [proDelay_retryCount, h]
      omega
  · intro env j url retries st hret hrc
    obtain ⟨m, hm⟩ : ∃ m, (retries + 1).toNat = m + 1 :=
      ⟨retries.toNat, by omega⟩
    simp only [fetchWithRetry, hm]
    obtain ⟨rest, hr⟩ := fetchGo_succ_trace env j url retries m 0 st
    refine ⟨rest, ?_⟩
    rw [hr, proDelay_trace_pos st hrc]
    simp [List.append_assoc]
  · intro env j url retries st hret hrc
    obtain ⟨m, hm⟩ : ∃ m, (retries + 1).toNat = m + 1 :=
      ⟨retries.toNat, by omega⟩
    simp only [fetchWithRetry, hm]
    obtain ⟨rest, hr⟩ := fetchGo_succ_trace env j url retries m 0 st
    refine ⟨rest, ?_⟩
    rw [hr, proDelay_trace_zero st hrc]

/-- Claim C10: for `retries >= 0`, `fetchWithRetry` is total at its
exit: it never reaches the implicit undefined fall-through of the attempt
loop, and any response it returns is a non-429 response (otherwise it
throws); for `retries < 0` the loop body never runs, so it returns the
implicit undefined with the state completely untouched — no HTTP request
is issued. -/
theorem C10_fetchWithRetry_total (env : Nat → FetchResult) (j : Nat → Nat)
    (url : String) (retries : Int) (st : St) :
    (0 ≤ retries →
      (fetchWithRetry env j url retries st).1 ≠ Except.ok none
      ∧ (∀ r, (fetchWithRetry env j url retries st).1 = Except.ok (some r) →
          r.status ≠ 429))
    ∧ (retries < 0 →
        fetchWithRetry env j url retries st = (Except.ok none, st)) := by
  constructor
  · intro hret
    constructor
    · apply fetchGo_ne_ok_none env j url retries _ 0 st
      · push_cast
        omega
      · omega
    · intro r h
      exact fetchGo_ok_not_429 env j url retries _ 0 st r h
  · intro hret
    have h0 : (retries + 1).toNat = 0 := by omega
    simp [fetchWithRetry, h0, fetchGo]

/-- Witness for claim C2 at the concrete jitter 500 ms. -/
theorem C2_witness :
    (∀ a : Nat, (fun _ : Nat => 500) a < 1000)
    ∧ (fetchWithRetry envTwo429 (fun _ : Nat => 500) "u" 5 initSt).1
        = Except.ok (some resp200) :=
  ⟨by intro a; show (500 : Nat) < 1000; decide,
   (C2_fetchWithRetry_behavior (fun _ => 500)
     (by intro a; show (500 : Nat) < 1000; decide)).1.1⟩

/-- Witness for claim C6's hypothesis-bearing conjuncts at concrete
environments and states. -/
theorem C6_witness :
    ((0 : Int) ≤ initSt.retryCount
      ∧ 0 ≤ ((fetchWithRetry envAll429 (fun _ => 0) "u" 5 initSt).2).retryCount)
    ∧ (envAll429 initSt.fc = FetchResult.resp resp429
      ∧ ((fetchWithRetry envAll429 (fun _ => 0) "u" 0 initSt).2).retryCount
          = initSt.retryCount + 1)
    ∧ (env200 initSt.fc = FetchResult.resp resp200
      ∧ ((fetchWithRetry env200 (fun _ => 0) "u" 5 initSt).2).retryCount
          = max 0 (initSt.retryCount - 1))
    ∧ (0 < rcOneSt.retryCount
      ∧ ∃ rest, ((fetchWithRetry env200 (fun _ => 0) "u" 5 rcOneSt).2).trace
          = rcOneSt.trace ++
            [Event.sleep (min (rcOneSt.retryCount * 2000) 10000).toNat,
             Event.httpGet "u"] ++ rest)
    ∧ (initSt.retryCount = 0
      ∧ ∃ rest, ((fetchWithRetry env200 (fun _ => 0) "u" 5 initSt).2).trace
          = initSt.trace ++ [Event.httpGet "u"] ++ rest) := by
  have h := C6_throttle_counter
  refine ⟨⟨by decide, h.2.1 envAll429 (fun _ => 0) "u" 5 initSt (by decide)⟩,
          ⟨rfl, h.2.2.1 envAll429 (fun _ => 0) "u" initSt resp429 rfl rfl⟩,
          ⟨rfl, h.2.2.2.1 env200 (fun _ => 0) "u" 5 initSt resp200 (by decide)
            (by decide) rfl (by decide)⟩,
          ⟨by decide, h.2.2.2.2.1 env200 (fun _ => 0) "u" 5 rcOneSt
            (by decide) (by decide)⟩,
          ⟨rfl, h.2.2.2.2.2 env200 (fun _ => 0) "u" 5 initSt (by decide) rfl⟩⟩

/-- Witness for claim C10 at `retries = 5` and `retries = -1`. -/
theorem C10_witness :
    ((0 : Int) ≤ 5
      ∧ (fetchWithRetry envTwo429 (fun _ => 0) "u" 5 initSt).1
          ≠ Except.ok none)
    ∧ ((-1 : Int) < 0
      ∧ fetchWithRetry envTwo429 (fun _ => 0) "u" (-1) initSt
          = (Except.ok none, initSt)) :=
  ⟨⟨by decide,
    ((C10_fetchWithRetry_total envTwo429 (fun _ => 0) "u" 5 initSt).1
      (by decide)).1⟩,
   ⟨by decide,
    (C10_fetchWithRetry_total envTwo429 (fun _ => 0) "u" (-1) initSt).2
      (by decide)⟩⟩

theorem fetchWithRetry_frame (env : Nat → FetchResult) (j : Nat → Nat)
    (url : String) (retries : Int) (st : St) :
    (∃ rest, ((fetchWithRetry env j url retries st).2).trace
        = st.trace ++ rest ∧ Event.acquire ∉ rest)
    ∧ ((fetchWithRetry env j url retries st).2).apiRequests = st.apiRequests
    ∧ ((fetchWithRetry env j url retries st).2).dlRequests = st.dlRequests
    ∧ ((fetchWithRetry env j url retries st).2).lastRequestTime
        = st.lastRequestTime := by
  obtain ⟨h1, h2, h3, h4, _⟩ :=
    fetchGo_frame env j url retries (retries + 1).toNat 0 st
  exact ⟨h1, h2, h3, h4⟩

theorem getImageUrlsGo_frame (env : Nat → FetchResult) (j : Nat → Nat)
    (fileKey format : String) (scale : Nat) :
    ∀ (batches : List (List String)) (acc : List (String × Option String))
      (st : St),
      (∃ rest,
        ((getImageUrlsGo env j fileKey format scale batches acc st).2).trace
          = st.trace ++ rest ∧ Event.acquire ∉ rest)
      ∧ ((getImageUrlsGo env j fileKey format scale batches acc st).2).apiRequests
          = st.apiRequests
      ∧ ((getImageUrlsGo env j fileKey format scale batches acc st).2).dlRequests
          = st.dlRequests
      ∧ ((getImageUrlsGo env j fileKey format scale batches acc st).2).lastRequestTime
          = st.lastRequestTime := by
  intro batches
  induction batches with
  | nil => intro acc st; simp [getImageUrlsGo]
  | cons batch rest ih =>
    intro acc st
    simp only [getImageUrlsGo]
    obtain ⟨⟨pre, hpre, hnapre⟩, hapi, hdl, hlast⟩ :=
      fetchWithRetry_frame env j
        (buildImagesUrl fileKey batch format scale) 5 st
    rcases hF : fetchWithRetry env j
        (buildImagesUrl fileKey batch format scale) 5 st with ⟨res, st1⟩
    rw [hF] at hpre hapi hdl hlast
    dsimp only at hpre hapi hdl hlast
    cases res with
    | error e => simp; exact ⟨⟨pre, hpre, hnapre⟩, hapi, hdl, hlast⟩
    | ok o =>
      cases o with
      | none => simp; exact ⟨⟨pre, hpre, hnapre⟩, hapi, hdl, hlast⟩
      | some r =>
        by_cases hok : httpOk r
        · simp only [hok, Bool.not_true, ite_true, ite_false, if_neg,
            Bool.false_eq_true, not_false_eq_true, if_true]
          cases herr : r.err with
          | some m => simp; exact ⟨⟨pre, hpre, hnapre⟩, hapi, hdl, hlast⟩
          | none =>
            simp only
            have step : ∀ S : St,
                (∃ p2, S.trace = st.trace ++ p2 ∧ Event.acquire ∉ p2) →
                S.apiRequests = st.apiRequests →
                S.dlRequests = st.dlRequests →
                S.lastRequestTime = st.lastRequestTime →
                (∃ r2,
                  ((getImageUrlsGo env j fileKey format scale rest
                      (spreadMerge acc r.images) S).2).trace
                    = st.trace ++ r2 ∧ Event.acquire ∉ r2)
                ∧ ((getImageUrlsGo env j fileKey format scale rest
                      (spreadMerge acc r.images) S).2).apiRequests
                    = st.apiRequests
                ∧ ((getImageUrlsGo env j fileKey format scale rest
                      (spreadMerge acc r.images) S).2).dlRequests
                    = st.dlRequests
                ∧ ((getImageUrlsGo env j fileKey format scale rest
                      (spreadMerge acc r.images) S).2).lastRequestTime
                    = st.lastRequestTime := by
              intro S ⟨p2, hp2, hnap2⟩ sapi sdl slast
              obtain ⟨⟨r2, hr2, hnar2⟩, hapi2, hdl2, hlast2⟩ :=
                ih (spreadMerge acc r.images) S
              refine ⟨⟨p2 ++ r2, ?_, ?_⟩, ?_, ?_, ?_⟩
              · rw [hr2, hp2, List.append_assoc]
              · simp_all [List.mem_append]
              · rw [hapi2, sapi]
              · rw [hdl2, sdl]
              · rw [hlast2, slast]
            apply step
            · by_cases hr : rest = [] <;>
                simp [hr, stSleep, hpre, hnapre]
            · by_cases hr : rest = [] <;> simp [hr, stSleep, hapi]
            · by_cases hr : rest = [] <;> simp [hr, stSleep, hdl]
            · by_cases hr : rest = [] <;> simp [hr, stSleep, hlast]
        · simp only [hok, ite_true, ite_false, Bool.not_false, if_pos]
          simp
          exact ⟨⟨pre, hpre, hnapre⟩, hapi, hdl, hlast⟩

theorem count_acquire_append (tr rest : List Event)
    (h : Event.acquire ∉ rest) :
    (tr ++ rest).count Event.acquire = tr.count Event.acquire := by
  simp [List.count_append, List.count_eq_zero.mpr h]

theorem downloadTask_nodeId (env : Nat → FetchResult) (j : Nat → Nat)
    (n u f p : String) (st : St) (fs : Files) :
    (downloadTask env j n u f p st fs).1.nodeId = n := by
  simp only [downloadTask]
  rcases hF : fetchWithRetry env j u 5 st with ⟨res, st1⟩
  cases res with
  | error e => simp
  | ok o =>
    cases o with
    | none => simp
    | some r => by_cases hok : httpOk r <;> simp [hok]

theorem downloadTask_frame (env : Nat → FetchResult) (j : Nat → Nat)
    (n u f p : String) (st : St) (fs : Files) :
    (∃ rest, ((downloadTask env j n u f p st fs).2.1).trace
        = st.trace ++ rest ∧ Event.acquire ∉ rest)
    ∧ ((downloadTask env j n u f p st fs).2.1).apiRequests
        = st.apiRequests := by
  simp only [downloadTask]
  have hfr := fetchWithRetry_frame env j u 5 st
  rcases hF : fetchWithRetry env j u 5 st with ⟨res, st1⟩
  rw [hF] at hfr
  dsimp only at hfr
  obtain ⟨⟨pre, hpre, hnapre⟩, hapi, _, _⟩ := hfr
  cases res with
  | error e => exact ⟨⟨pre, hpre, hnapre⟩, hapi⟩
  | ok o =>
    cases o with
    | none => exact ⟨⟨pre, hpre, hnapre⟩, hapi⟩
    | some r =>
      by_cases hok : httpOk r <;> simp [hok] <;>
        exact ⟨⟨pre, hpre, hnapre⟩, hapi⟩

theorem stAcquire_acquire_count (st : St) :
    ((stAcquire st).trace).count Event.acquire
      = st.trace.count Event.acquire + 1 := by
  by_cases h : (st.dlRequests.filter (fun t => st.clock - t < 60000)).length ≥ 30 <;>
    simp [stAcquire, stSleep, h, List.count_append]

theorem stAcquire_apiRequests (st : St) :
    (stAcquire st).apiRequests = st.apiRequests := by
  by_cases h : (st.dlRequests.filter (fun t => st.clock - t < 60000)).length ≥ 30 <;>
    simp [stAcquire, stSleep, h]

theorem stInterval_acquire_count (st : St) :
    ((stInterval st).trace).count Event.acquire
      = st.trace.count Event.acquire := by
  by_cases h : st.clock - st.lastRequestTime < 1000 <;>
    simp [stInterval, stSleep, h, List.count_append]

theorem stInterval_apiRequests (st : St) :
    (stInterval st).apiRequests = st.apiRequests := by
  by_cases h : st.clock - st.lastRequestTime < 1000 <;>
    simp [stInterval, stSleep, h]

theorem runDownloads_map_nodeId (env : Nat → FetchResult) (j : Nat → Nat)
    (outputDir format : String) :
    ∀ (entries : List (String × Option String)) (st : St) (fs : Files),
      ((runDownloads env j outputDir format entries st fs).1).map
        Outcome.nodeId = entries.map Prod.fst := by
  intro entries
  induction entries with
  | nil => intro st fs; simp [runDownloads]
  | cons e rest ih =>
    intro st fs
    rcases e with ⟨nodeId, url⟩
    cases url with
    | none => simp [runDownloads, ih]
    | some u => simp [runDownloads, ih, downloadTask_nodeId]

theorem runDownloads_length (env : Nat → FetchResult) (j : Nat → Nat)
    (outputDir format : String) (entries : List (String × Option String))
    (st : St) (fs : Files) :
    ((runDownloads env j outputDir format entries st fs).1).length
      = entries.length := by
  have h := runDownloads_map_nodeId env j outputDir format entries st fs
  have h1 := congrArg List.length h
  simpa using h1

theorem runDownloads_acquire_count (env : Nat → FetchResult) (j : Nat → Nat)
    (outputDir format : String) :
    ∀ (entries : List (String × Option String)) (st : St) (fs : Files),
      (((runDownloads env j outputDir format entries st fs).2.1).trace).count
        Event.acquire
      = st.trace.count Event.acquire
        + (entries.filter (fun p => p.2.isSome)).length := by
  intro entries
  induction entries with
  | nil => intro st fs; simp [runDownloads]
  | cons e rest ih =>
    intro st fs
    rcases e with ⟨nodeId, url⟩
    cases url with
    | none => simp [runDownloads, ih]
    | some u =>
      simp only [runDownloads]
      obtain ⟨⟨pre, hpre, hnapre⟩, _⟩ :=
        downloadTask_frame env j nodeId u
          (safeName nodeId ++ "." ++ format)
          (outputDir ++ "/" ++ (safeName nodeId ++ "." ++ format))
          (stInterval (stAcquire st)) fs
      simp only [ih]
      rw [hpre, count_acquire_append _ _ hnapre,
        stInterval_acquire_count, stAcquire_acquire_count]
      simp [List.filter]
      omega

theorem runDownloads_apiRequests (env : Nat → FetchResult) (j : Nat → Nat)
    (outputDir format : String) :
    ∀ (entries : List (String × Option String)) (st : St) (fs : Files),
      ((runDownloads env j outputDir format entries st fs).2.1).apiRequests
        = st.apiRequests := by
  intro entries
  induction entries with
  | nil => intro st fs; simp [runDownloads]
  | cons e rest ih =>
    intro st fs
    rcases e with ⟨nodeId, url⟩
    cases url with
    | none => simp [runDownloads, ih]
    | some u =>
      simp only [runDownloads]
      obtain ⟨_, hapi⟩ :=
        downloadTask_frame env j nodeId u
          (safeName nodeId ++ "." ++ format)
          (outputDir ++ "/" ++ (safeName nodeId ++ "." ++ format))
          (stInterval (stAcquire st)) fs
      rw [ih, hapi, stInterval_apiRequests, stAcquire_apiRequests]

theorem chunkList5_flatten {α : Type} (xs : List α) : (chunkList5 xs).flatten = xs := by
  induction xs using chunkList5.induct <;> simp [chunkList5, *]

theorem chunkList5_length {α : Type} (xs : List α) :
    (chunkList5 xs).length = (xs.length + 4) / 5 := by
  induction xs using chunkList5.induct with
  | case1 => simp [chunkList5]
  | case2 a b c d e rest ih =>
    simp only [chunkList5, List.length_cons, ih]
    omega
  | case3 xs h1 h2 =>
    rcases xs with _ | ⟨a, _ | ⟨b, _ | ⟨c, _ | ⟨d, _ | ⟨e, rest⟩⟩⟩⟩⟩
    · exact absurd rfl h1
    · simp [chunkList5]
    · simp [chunkList5]
    · simp [chunkList5]
    · simp [chunkList5]
    · exact absurd rfl (h2 a b c d e rest)

/-- Claim C5: the canonicalized identifier list is partitioned into
order-preserving chunks of fixed size 5 (flattening the chunks restores
the list), and the number of resolution calls is the number of chunks,
`ceil(n / 5) = (n + 4) / 5`; for 12 identifiers the chunk sizes are
exactly [5, 5, 2], and the concrete 12-identifier run issues exactly 3
sequential resolution calls with a 2000 ms (twice the base interval)
sleep between consecutive calls and none after the last, returning the
union of the three batch results (their spread-merge). -/
theorem C5_getImageUrls_batching :
    (∀ xs : List String, (chunkList5 xs).flatten = xs)
    ∧ (∀ xs : List String, (chunkList5 xs).length = (xs.length + 4) / 5)
    ∧ (chunkList5 (ids12.map canonicalId)).map List.length = [5, 5, 2]
    ∧ getImageUrls envBatches jitter0 initSt "k" ids12 "png" 2
        = (Except.ok [("1:1", some "a"), ("1:6", some "b"), ("1:11", none)],
           { retryCount := 0, fc := 3, clock := 4000, lastRequestTime := 0,
             dlRequests := [], apiRequests := [],
             trace := [Event.httpGet
                 "https://api.figma.com/v1/images/k?ids=1:1,1:2,1:3,1:4,1:5&format=png&scale=2",
               Event.sleep 2000,
               Event.httpGet
                 "https://api.figma.com/v1/images/k?ids=1:6,1:7,1:8,1:9,1:10&format=png&scale=2",
               Event.sleep 2000,
               Event.httpGet
                 "https://api.figma.com/v1/images/k?ids=1:11,1:12&format=png&scale=2"] })
    ∧ [("1:1", some "a"), ("1:6", some "b"), ("1:11", none)]
        = spreadMerge (spreadMerge (spreadMerge [] [("1:1", some "a")])
            [("1:6", some "b")]) [("1:11", none)] := by
  refine ⟨chunkList5_flatten, chunkList5_length, by decide, rfl, rfl⟩

theorem mapNoHyphen (l : List Char) (h : ('-') ∉ l) :
    l.map (fun c => if c = '-' then ':' else c) = l := by
  induction l with
  | nil => rfl
  | cons c t iht =>
    have hc : c ≠ '-' := by
      intro hh
      exact h (by simp [hh])
    have ht : ('-') ∉ t := by
      intro hh
      exact h (by simp [hh])
    simp [hc, iht ht]

/-- Claim C7: identifier conversion maps every hyphen to a colon
(`3228-9855` becomes `3228:9855`), the output file name replaces every
colon with an underscore and appends the format extension (`3228:9855`
with png becomes `3228_9855.png`), and canonicalization of a hyphen-free
identifier is the identity. -/
theorem C7_identifier_conversion :
    canonicalId "3228-9855" = "3228:9855"
    ∧ safeName "3228:9855" ++ "." ++ "png" = "3228_9855.png"
    ∧ (∀ s : String, ('-') ∉ s.data → canonicalId s = s) := by
  refine ⟨rfl, rfl, ?_⟩
  intro s h
  obtain ⟨l⟩ := s
  show String.mk (l.map (fun c => if c = '-' then ':' else c)) = String.mk l
  exact congrArg String.mk (mapNoHyphen l h)

/-- Witness for claim C7's idempotence conjunct at the already-canonical
identifier `3228:9855`. -/
theorem C7_witness :
    ('-') ∉ ("3228:9855" : String).data
    ∧ canonicalId "3228:9855" = "3228:9855" :=
  ⟨by decide, C7_identifier_conversion.2.2 "3228:9855" (by decide)⟩

/-- Claim C1, counterexample: requesting the two identifiers `1-1` and
`1-2` against a vendor response whose images map only contains `1:1`
completes without error, yet the outcome list has a single entry, for
`1:1` alone — the requested identifier `1:2` has no outcome, refuting
"exactly one entry per originally requested node identifier ... none
missing" when the vendor's response map omits a requested identifier. -/
theorem C1_counterexample :
    (downloadImages envOmit jitter0 initSt "k" ["1-1", "1-2"] "out" "png"
        2).1
      = Except.ok [{ nodeId := "1:1", success := true,
                     fileName := some "1_1.png",
                     filePath := some "out/1_1.png", size := some 0 }]
    ∧ ["1-1", "1-2"].map canonicalId = ["1:1", "1:2"]
    ∧ ([{ nodeId := "1:1", success := true, fileName := some "1_1.png",
          filePath := some "out/1_1.png", size := some 0 }] :
        List Outcome).map Outcome.nodeId = ["1:1"]
    ∧ ("1:2" : String) ∉ (["1:1"] : List String) :=
  ⟨rfl, rfl, rfl, by decide⟩

/-- Claim C1, amended: when `downloadImages` completes without error, the
outcome list has exactly one entry per entry of the merged vendor response
map, keyed by that map's keys in map order; the outcome identifiers equal
the canonicalized requested identifiers exactly when the vendor map's keys
are that canonicalized list (no omission, no extras, no duplicates). -/
theorem C1_outcomes_match_vendor_map :
    ∀ (env : Nat → FetchResult) (j : Nat → Nat) (st : St)
      (fileKey : String) (nodeIds : List String) (outputDir format : String)
      (scale : Nat) (outs : List Outcome) (st2 : St) (fs : Files),
      downloadImages env j st fileKey nodeIds outputDir format scale
        = (Except.ok outs, st2, fs) →
      ∃ m st1, getImageUrls env j st fileKey nodeIds format scale
          = (Except.ok m, st1)
        ∧ outs.map Outcome.nodeId = m.map Prod.fst
        ∧ (m.map Prod.fst = nodeIds.map canonicalId →
            outs.map Outcome.nodeId = nodeIds.map canonicalId) := by
  intro env j st fk ids dir fmt sc outs st2 fs h
  simp only [downloadImages] at h
  rcases hG : getImageUrls env j st fk ids fmt sc with ⟨res, st1⟩
  rw [hG] at h
  cases res with
  | error e => simp at h
  | ok m =>
    simp only [Prod.mk.injEq] at h
    obtain ⟨h1, _⟩ := h
    have houts : outs = (runDownloads env j dir fmt m st1 []).1 :=
      (Except.ok.injEq _ _).mp h1.symm
    refine ⟨m, st1, rfl, ?_, ?_⟩
    · rw [houts, runDownloads_map_nodeId]
    · intro hm
      rw [houts, runDownloads_map_nodeId, hm]

/-- Witness for the amended claim C1 at a concrete input: the hypothesis
(an error-free `downloadImages` run) is discharged by evaluation and the
amended conclusion is obtained from the theorem. -/
theorem C1_witness :
    downloadImages envOmit jitter0 initSt "k" ["1-1", "1-2"] "out" "png" 2
      = (Except.ok [{ nodeId := "1:1", success := true,
                      fileName := some "1_1.png",
                      filePath := some "out/1_1.png", size := some 0 }],
         { retryCount := 0, fc := 2, clock := 1000, lastRequestTime := 1000,
           dlRequests := [0], apiRequests := [],
           trace := [Event.httpGet
               "https://api.figma.com/v1/images/k?ids=1:1,1:2&format=png&scale=2",
             Event.acquire, Event.sleep 1000, Event.httpGet "u"] },
         [("out/1_1.png", 0)])
    ∧ ∃ m st1,
        getImageUrls envOmit jitter0 initSt "k" ["1-1", "1-2"] "png" 2
          = (Except.ok m, st1)
        ∧ ([{ nodeId := "1:1", success := true, fileName := some "1_1.png",
              filePath := some "out/1_1.png", size := some 0 }] :
            List Outcome).map Outcome.nodeId = m.map Prod.fst
        ∧ (m.map Prod.fst = ["1-1", "1-2"].map canonicalId →
            ([{ nodeId := "1:1", success := true, fileName := some "1_1.png",
                filePath := some "out/1_1.png", size := some 0 }] :
              List Outcome).map Outcome.nodeId
              = ["1-1", "1-2"].map canonicalId) :=
  ⟨rfl, C1_outcomes_match_vendor_map envOmit jitter0 initSt "k"
    ["1-1", "1-2"] "out" "png" 2 _ _ _ rfl⟩

/-- Claim C3: an absent (null) resolved URL records the fixed
`Cannot export` failure outcome and issues no byte-fetch (the state is
passed to the remaining entries untouched); a non-OK byte-fetch status
yields the failure outcome `HTTP <status>` with no file written; any error
thrown in the fetch-or-write path becomes that identifier's failure
outcome carrying the error's message with the files untouched; every
entry always yields exactly one outcome (siblings are neither aborted nor
altered), as the concrete mixed run with a null URL, an HTTP 500 and a
success also shows end to end. -/
theorem C3_per_item_failures :
    (∀ (env : Nat → FetchResult) (j : Nat → Nat) (dir fmt id : String)
       (rest : List (String × Option String)) (st : St) (fs : Files),
       runDownloads env j dir fmt ((id, none) :: rest) st fs
         = ({ nodeId := id, success := false, error := some "Cannot export" }
              :: (runDownloads env j dir fmt rest st fs).1,
            (runDownloads env j dir fmt rest st fs).2))
    ∧ (∀ (env : Nat → FetchResult) (j : Nat → Nat) (n u f p : String)
        (st st1 : St) (fs : Files) (r : HttpResponse),
        fetchWithRetry env j u 5 st = (Except.ok (some r), st1) →
        httpOk r = false →
        downloadTask env j n u f p st fs
          = ({ nodeId := n, success := false,
               error := some ("HTTP " ++ toString r.status) }, st1, fs))
    ∧ (∀ (env : Nat → FetchResult) (j : Nat → Nat) (n u f p : String)
        (st st1 : St) (fs : Files) (e : Err),
        fetchWithRetry env j u 5 st = (Except.error e, st1) →
        downloadTask env j n u f p st fs
          = ({ nodeId := n, success := false, error := some e.message },
             st1, fs))
    ∧ (∀ (env : Nat → FetchResult) (j : Nat → Nat) (dir fmt : String)
        (entries : List (String × Option String)) (st : St) (fs : Files),
        ((runDownloads env j dir fmt entries st fs).1).length
          = entries.length)
    ∧ downloadImages envMixed jitter0 initSt "k" ["1-0", "1-1", "1-2"]
        "out" "png" 2
      = (Except.ok [{ nodeId := "1:0", success := false,
                      error := some "Cannot export" },
                    { nodeId := "1:1", success := false,
                      error := some "HTTP 500" },
                    { nodeId := "1:2", success := true,
                      fileName := some "1_2.png",
                      filePath := some "out/1_2.png", size := some 7 }],
         { retryCount := 0, fc := 3, clock := 2000, lastRequestTime := 2000,
           dlRequests := [0, 1000], apiRequests := [],
           trace := [Event.httpGet
               "https://api.figma.com/v1/images/k?ids=1:0,1:1,1:2&format=png&scale=2",
             Event.acquire, Event.sleep 1000, Event.httpGet "ua",
             Event.acquire, Event.sleep 1000, Event.httpGet "ub"] },
         [("out/1_2.png", 7)]) := by
  refine ⟨fun env j dir fmt id rest st fs => rfl, ?_, ?_,
    runDownloads_length, rfl⟩
  · intro env j n u f p st st1 fs r hF hok
    simp only [downloadTask, hF]
    simp [hok]
  · intro env j n u f p st st1 fs e hF
    simp only [downloadTask, hF]

/-- Witness for claim C3's hypothesis-bearing conjuncts: a concrete HTTP
500 byte-fetch and a concrete network failure, each converted to the
corresponding failure outcome. -/
theorem C3_witness :
    (fetchWithRetry env500 jitter0 "u" 5 initSt
        = (Except.ok (some resp500),
           { retryCount := 0, fc := 1, clock := 0, lastRequestTime := 0,
             dlRequests := [], apiRequests := [],
             trace := [Event.httpGet "u"] })
      ∧ httpOk resp500 = false
      ∧ downloadTask env500 jitter0 "n" "u" "f" "p" initSt []
          = ({ nodeId := "n", success := false, error := some "HTTP 500" },
             { retryCount := 0, fc := 1, clock := 0, lastRequestTime := 0,
               dlRequests := [], apiRequests := [],
               trace := [Event.httpGet "u"] }, []))
    ∧ (fetchWithRetry envNetFail jitter0 "u" 5 initSt
        = (Except.error (Err.network "fetch failed"),
           { retryCount := 0, fc := 1, clock := 0, lastRequestTime := 0,
             dlRequests := [], apiRequests := [],
             trace := [Event.httpGet "u"] })
      ∧ downloadTask envNetFail jitter0 "n" "u" "f" "p" initSt []
          = ({ nodeId := "n", success := false,
               error := some (Err.network "fetch failed").message },
             { retryCount := 0, fc := 1, clock := 0, lastRequestTime := 0,
               dlRequests := [], apiRequests := [],
               trace := [Event.httpGet "u"] }, [])) := by
  refine ⟨⟨rfl, rfl, ?_⟩, rfl, ?_⟩
  · exact C3_per_item_failures.2.1 env500 jitter0 "n" "u" "f" "p" initSt
      { retryCount := 0, fc := 1, clock := 0, lastRequestTime := 0,
        dlRequests := [], apiRequests := [], trace := [Event.httpGet "u"] }
      [] resp500 (by rfl) rfl
  · exact C3_per_item_failures.2.2.1 envNetFail jitter0 "n" "u" "f" "p"
      initSt
      { retryCount := 0, fc := 1, clock := 0, lastRequestTime := 0,
        dlRequests := [], apiRequests := [], trace := [Event.httpGet "u"] }
      [] (Err.network "fetch failed") (by rfl)

/-- Claim C4: any failure during URL resolution aborts the whole
`downloadImages` invocation with that error before any per-item outcome
or file is produced, and a successful resolution always yields a complete
outcome list with one outcome per entry of the resolved map — never a
partial list; concretely, a non-OK batch response, a vendor `err` field,
and retry-ceiling exhaustion each abort with zero outcomes and files. -/
theorem C4_resolution_failures_fatal :
    (∀ (env : Nat → FetchResult) (j : Nat → Nat) (st : St)
       (fk : String) (ids : List String) (dir fmt : String) (sc : Nat)
       (e : Err) (st1 : St),
       getImageUrls env j st fk ids fmt sc = (Except.error e, st1) →
       downloadImages env j st fk ids dir fmt sc
         = (Except.error e, st1, []))
    ∧ (∀ (env : Nat → FetchResult) (j : Nat → Nat) (st : St)
        (fk : String) (ids : List String) (dir fmt : String) (sc : Nat)
        (m : List (String × Option String)) (st1 : St),
        getImageUrls env j st fk ids fmt sc = (Except.ok m, st1) →
        ∃ outs st2 fs,
          downloadImages env j st fk ids dir fmt sc
            = (Except.ok outs, st2, fs)
          ∧ outs.length = m.length)
    ∧ ((downloadImages env500 jitter0 initSt "k" ["1-1"] "out" "png" 2).1
        = Except.error (Err.api "Figma API error: 500 ")
      ∧ (downloadImages env500 jitter0 initSt "k" ["1-1"] "out" "png"
          2).2.2 = [])
    ∧ ((downloadImages envErrField jitter0 initSt "k" ["1-1"] "out" "png"
          2).1
        = Except.error (Err.api "Figma API error: boom")
      ∧ (downloadImages envErrField jitter0 initSt "k" ["1-1"] "out" "png"
          2).2.2 = [])
    ∧ ((downloadImages envAll429 jitter0 initSt "k" ["1-1"] "out" "png"
          2).1
        = Except.error (Err.rateLimit
            "Rate limit exceeded after 5 retries. Try again in a few minutes.")
      ∧ (downloadImages envAll429 jitter0 initSt "k" ["1-1"] "out" "png"
          2).2.2 = []) := by
  refine ⟨?_, ?_, ⟨by rfl, by rfl⟩, ⟨by rfl, by rfl⟩, ⟨by rfl, by rfl⟩⟩
  · intro env j st fk ids dir fmt sc e st1 h
    simp only [downloadImages, h]
  · intro env j st fk ids dir fmt sc m st1 h
    refine ⟨(runDownloads env j dir fmt m st1 []).1,
      (runDownloads env j dir fmt m st1 []).2.1,
      (runDownloads env j dir fmt m st1 []).2.2, ?_, runDownloads_length ..⟩
    simp only [downloadImages, h]

/-- Witness for claim C4's hypothesis-bearing conjuncts at concrete
failing and succeeding resolutions. -/
theorem C4_witness :
    (getImageUrls env500 jitter0 initSt "k" ["1-1"] "png" 2
        = (Except.error (Err.api "Figma API error: 500 "),
           { retryCount := 0, fc := 1, clock := 0, lastRequestTime := 0,
             dlRequests := [], apiRequests := [],
             trace := [Event.httpGet
               "https://api.figma.com/v1/images/k?ids=1:1&format=png&scale=2"] })
      ∧ downloadImages env500 jitter0 initSt "k" ["1-1"] "out" "png" 2
          = (Except.error (Err.api "Figma API error: 500 "),
             { retryCount := 0, fc := 1, clock := 0, lastRequestTime := 0,
               dlRequests := [], apiRequests := [],
               trace := [Event.httpGet
                 "https://api.figma.com/v1/images/k?ids=1:1&format=png&scale=2"] },
             []))
    ∧ (getImageUrls envOmit jitter0 initSt "k" ["1-1", "1-2"] "png" 2
        = (Except.ok [("1:1", some "u")],
           { retryCount := 0, fc := 1, clock := 0, lastRequestTime := 0,
             dlRequests := [], apiRequests := [],
             trace := [Event.httpGet
               "https://api.figma.com/v1/images/k?ids=1:1,1:2&format=png&scale=2"] })
      ∧ ∃ outs st2 fs,
          downloadImages envOmit jitter0 initSt "k" ["1-1", "1-2"] "out"
            "png" 2 = (Except.ok outs, st2, fs)
          ∧ outs.length = [("1:1", some "u")].length) := by
  refine ⟨⟨by rfl, ?_⟩, ⟨by rfl, ?_⟩⟩
  · exact C4_resolution_failures_fatal.1 env500 jitter0 initSt "k" ["1-1"]
      "out" "png" 2 (Err.api "Figma API error: 500 ")
      { retryCount := 0, fc := 1, clock := 0, lastRequestTime := 0,
        dlRequests := [], apiRequests := [],
        trace := [Event.httpGet
          "https://api.figma.com/v1/images/k?ids=1:1&format=png&scale=2"] }
      (by rfl)
  · exact C4_resolution_failures_fatal.2.1 envOmit jitter0 initSt "k"
      ["1-1", "1-2"] "out" "png" 2 [("1:1", some "u")]
      { retryCount := 0, fc := 1, clock := 0, lastRequestTime := 0,
        dlRequests := [], apiRequests := [],
        trace := [Event.httpGet
          "https://api.figma.com/v1/images/k?ids=1:1,1:2&format=png&scale=2"] }
      (by rfl)

/-- Claim C8, counterexample: a concrete `getImageUrls` invocation issues
its batch-resolution HTTP call with no rate-limiter acquisition anywhere
in the trace, refuting "acquire() ... is invoked (and completes) before
each resolution request is sent". -/
theorem C8_counterexample :
    (getImageUrls envOmit jitter0 initSt "k" ["1-1"] "png" 2).2.trace
      = [Event.httpGet
          "https://api.figma.com/v1/images/k?ids=1:1&format=png&scale=2"]
    ∧ Event.acquire ∉
        [Event.httpGet
          "https://api.figma.com/v1/images/k?ids=1:1&format=png&scale=2"] :=
  ⟨by rfl, by decide⟩

/-- Claim C8, amended: batch-resolution calls are not gated by any
rate limiter — `getImageUrls` never adds an acquire event — and the
`apiRateLimiter` constructed for API calls is never used (its timestamp
list is unchanged by a whole `downloadImages` invocation); only the
queued download tasks are gated, by the download queue's own limiter,
with exactly one acquisition per enqueued download. -/
theorem C8_resolution_not_gated :
    (∀ (env : Nat → FetchResult) (j : Nat → Nat) (st : St) (fk : String)
       (ids : List String) (fmt : String) (sc : Nat),
       ((getImageUrls env j st fk ids fmt sc).2).trace.count Event.acquire
         = st.trace.count Event.acquire)
    ∧ (∀ (env : Nat → FetchResult) (j : Nat → Nat) (st : St) (fk : String)
        (ids : List String) (dir fmt : String) (sc : Nat),
        ((downloadImages env j st fk ids dir fmt sc).2.1).apiRequests
          = st.apiRequests)
    ∧ (∀ (env : Nat → FetchResult) (j : Nat → Nat) (dir fmt : String)
        (entries : List (String × Option String)) (st : St) (fs : Files),
        (((runDownloads env j dir fmt entries st fs).2.1).trace).count
          Event.acquire
          = st.trace.count Event.acquire
            + (entries.filter (fun p => p.2.isSome)).length) := by
  refine ⟨?_, ?_, runDownloads_acquire_count⟩
  · intro env j st fk ids fmt sc
    obtain ⟨⟨rest, hr, hna⟩, _, _, _⟩ :=
      getImageUrlsGo_frame env j fk fmt sc
        (chunkList5 (ids.map canonicalId)) [] st
    simp only [getImageUrls]
    rw [hr, count_acquire_append _ _ hna]
  · intro env j st fk ids dir fmt sc
    simp only [downloadImages]
    obtain ⟨_, hapi, _, _⟩ :=
      getImageUrlsGo_frame env j fk fmt sc
        (chunkList5 (ids.map canonicalId)) [] st
    rcases hG : getImageUrls env j st fk ids fmt sc with ⟨res, st1⟩
    have hapi1 : st1.apiRequests = st.apiRequests := by
      have : (getImageUrls env j st fk ids fmt sc).2.apiRequests
          = st.apiRequests := hapi
      rw [hG] at this
      exact this
    cases res with
    | error e => simpa using hapi1
    | ok m =>
      simp only
      rw [runDownloads_apiRequests, hapi1]

/-- Claim C9: the tool-call entry point constructs a fresh downloader
for every invocation, so each invocation starts from the constructor
state: throttle counter zero, both rate limiters' timestamp lists empty,
queue idle, empty trace — no state of a previous invocation is
observable. -/
theorem C9_fresh_state_per_invocation :
    (∀ (env : Nat → FetchResult) (j : Nat → Nat) (fk : String)
       (ids : List String) (dir fmt : String) (sc : Nat),
       callToolDownloadImages env j fk ids dir fmt sc
         = downloadImages env j initSt fk ids dir fmt sc)
    ∧ initSt.retryCount = 0
    ∧ initSt.dlRequests = []
    ∧ initSt.apiRequests = []
    ∧ initSt.lastRequestTime = 0
    ∧ initSt.trace = [] :=
  ⟨fun _ _ _ _ _ _ _ => rfl, rfl, rfl, rfl, rfl, rfl⟩
